import Mathlib

/-! Shallow embedding of the PTZ camera controller repository
(src/ptz_controller.py, the menu-driven CLI variant, and
src/ptz_control_with_keyboard.py, the keyboard variant).

Python floats are modelled as rationals. The external ONVIF client is the
out-of-scope collaborator: its responses are passed in as explicit inputs,
and the requests the controller issues to it are recorded as an event list.
The mutable ONVIF request objects cached on the controller (request_continuous,
request_stop, request_gotopreset, request_setpreset) are modelled as explicit
state threaded through each operation, matching the field-mutation style of
the source. -/

/-- ONVIF 2D vector, the PanTilt component of a velocity. -/
structure Vector2D where
  x : ℚ
  y : ℚ
deriving DecidableEq

/-- ONVIF 1D vector, the Zoom component of a velocity. -/
structure Vector1D where
  x : ℚ
deriving DecidableEq

/-- The velocity payload assigned to request_continuous.Velocity in
continuous_move: a PanTilt pair and a Zoom scalar. -/
structure PTZVelocity where
  PanTilt : Vector2D
  Zoom : Vector1D
deriving DecidableEq

/-- One observable interaction of the controller with the camera client or
the clock: a ContinuousMove request, a time.sleep, or a Stop request. -/
inductive CamEvent where
  | continuousMove (profileToken : String) (velocity : PTZVelocity)
  | sleep (seconds : ℚ)
  | stop (profileToken : String) (panTilt zoom : Bool)
deriving DecidableEq

/-- Number of Stop requests in an event trace. -/
def stopCount (events : List CamEvent) : Nat :=
  events.countP fun e =>
    match e with
    | CamEvent.stop _ _ _ => true
    | _ => false

/-- The cached ContinuousMove request object (ptz.create_type result). -/
structure ContinuousMoveRequest where
  ProfileToken : String
  Velocity : Option PTZVelocity
deriving DecidableEq

/-- The cached Stop request object. -/
structure StopRequest where
  ProfileToken : String
  PanTilt : Option Bool
  Zoom : Option Bool
deriving DecidableEq

/-- The cached GotoPreset request object. -/
structure GotoPresetRequest where
  ProfileToken : String
  PresetToken : Option String
deriving DecidableEq

/-- The cached SetPreset request object. -/
structure SetPresetRequest where
  ProfileToken : String
  PresetName : Option String
deriving DecidableEq

/-- The mutable state of a PTZController instance after construction: the four
cached request objects and the three precomputed maximum speeds. -/
structure ControllerState where
  request_continuous : ContinuousMoveRequest
  request_stop : StopRequest
  request_gotopreset : GotoPresetRequest
  request_setpreset : SetPresetRequest
  max_pan_speed : ℚ
  max_tilt_speed : ℚ
  max_zoom_speed : ℚ
deriving DecidableEq

/-- The per-axis maximum speeds of a controller, as a record of their own. -/
structure VelocityLimits where
  max_pan_speed : ℚ
  max_tilt_speed : ℚ
  max_zoom_speed : ℚ
deriving DecidableEq

/-- Projection of a controller state onto its three speed limits. -/
def limitsOf (s : ControllerState) : VelocityLimits :=
  ⟨s.max_pan_speed, s.max_tilt_speed, s.max_zoom_speed⟩

/-- Projection of a controller state onto the ProfileToken fields of its four
cached request objects. -/
def profileTokens (s : ControllerState) : String × String × String × String :=
  (s.request_continuous.ProfileToken, s.request_stop.ProfileToken,
    s.request_gotopreset.ProfileToken, s.request_setpreset.ProfileToken)

/-- An ONVIF FloatRange as read from GetConfigurationOptions. -/
structure FloatRange where
  Min : ℚ
  Max : ℚ
deriving DecidableEq

/-- A PanTiltVelocitySpace entry; an Option field models a possibly missing
attribute (hasattr false, or an access that raises). -/
structure Space2D where
  XRange : Option FloatRange
  YRange : Option FloatRange
deriving DecidableEq

/-- A ZoomVelocitySpace entry. -/
structure Space1D where
  XRange : Option FloatRange
deriving DecidableEq

/-- The Spaces attribute of the configuration options. An outer none models a
missing attribute; some [] models a present but empty (falsy) list. -/
structure PTZSpaces where
  PanTiltVelocitySpace : Option (List Space2D)
  ZoomVelocitySpace : Option (List Space1D)
deriving DecidableEq

/-- The GetConfigurationOptions response body. -/
structure ConfigOptions where
  Spaces : Option PTZSpaces
deriving DecidableEq

/-- Outcome of the GetConfigurationOptions call itself: either a response
(possibly None) or the call raising an exception. -/
inductive QueryResult where
  | ok (cfg_opts : Option ConfigOptions)
  | raises
deriving DecidableEq

/-- The ptz.SetPreset response; PresetToken none models a response without
that attribute (hasattr false). The whole response can also be None. -/
structure SetPresetResponse where
  PresetToken : Option String
deriving DecidableEq

/-- Observable outcome of set_preset: the returned token and whether the
warning line about a missing PresetToken was printed. -/
structure SetPresetResult where
  token : String
  warned : Bool
deriving DecidableEq

/-- A camera preset as returned by ptz.GetPresets: an opaque token and an
optional name. -/
structure Preset where
  token : String
  Name : Option String
deriving DecidableEq

namespace PTZCli

/-- From src/ptz_controller.py lines 106-111: clamp v into the closed interval
from -1 to 1 and scale by max_speed. -/
def normalized_speed (v max_speed : ℚ) : ℚ :=
  max (-1) (min 1 v) * max_speed

/-- From src/ptz_controller.py lines 113-131: build the velocity triple with
normalized_speed per axis, store it on the cached request, and issue one
ContinuousMove request. -/
def continuous_move (s : ControllerState) (pan tilt zoom : ℚ) :
    ControllerState × List CamEvent :=
  let vel : PTZVelocity :=
    ⟨⟨normalized_speed pan s.max_pan_speed, normalized_speed tilt s.max_tilt_speed⟩,
      ⟨normalized_speed zoom s.max_zoom_speed⟩⟩
  let s1 : ControllerState :=
    { s with request_continuous := { s.request_continuous with Velocity := some vel } }
  (s1, [CamEvent.continuousMove s1.request_continuous.ProfileToken vel])

/-- From src/ptz_controller.py lines 133-136: set the axis-group flags on the
cached Stop request and issue it. -/
def stop (s : ControllerState) (pan_tilt zoom : Bool) : ControllerState × List CamEvent :=
  let s1 : ControllerState :=
    { s with request_stop := { s.request_stop with PanTilt := some pan_tilt, Zoom := some zoom } }
  (s1, [CamEvent.stop s1.request_stop.ProfileToken pan_tilt zoom])

/-- From src/ptz_controller.py lines 138-140: set the token on the cached
GotoPreset request and forward it. -/
def go_to_preset (s : ControllerState) (preset_token : String) : ControllerState :=
  { s with request_gotopreset := { s.request_gotopreset with PresetToken := some preset_token } }

/-- From src/ptz_controller.py lines 142-152: set the name, call SetPreset,
return the PresetToken of the response if present, else print a warning and
return the empty string. -/
def set_preset (s : ControllerState) (name : String) (resp : Option SetPresetResponse) :
    ControllerState × SetPresetResult :=
  let s1 : ControllerState :=
    { s with request_setpreset := { s.request_setpreset with PresetName := some name } }
  match resp with
  | some r =>
    match r.PresetToken with
    | some tok => (s1, ⟨tok, false⟩)
    | none => (s1, ⟨"", true⟩)
  | none => (s1, ⟨"", true⟩)

/-- From src/ptz_controller.py lines 154-159: forward GetPresets and return
the list exactly as the client reports it. -/
def list_presets (s : ControllerState) (camPresets : List Preset) :
    ControllerState × List Preset :=
  (s, camPresets)

/-- The zoom half of the try block at src/ptz_controller.py lines 100-101:
if ZoomVelocitySpace is present and non-empty, read its XRange.Max; a missing
XRange raises and leaves the state as it was. -/
def zoomBlock (spaces : PTZSpaces) (st : VelocityLimits) : VelocityLimits :=
  match spaces.ZoomVelocitySpace with
  | some (zv :: _) =>
    match zv.XRange with
    | some xr => { st with max_zoom_speed := xr.Max }
    | none => st
  | _ => st

/-- The try block at src/ptz_controller.py lines 89-104: start from the 0.5
defaults and overwrite per axis; an exception partway through (a missing
XRange or YRange) keeps what was already assigned and skips the rest. -/
def readLimits (cfg_opts : Option ConfigOptions) : VelocityLimits :=
  let d : VelocityLimits := ⟨1/2, 1/2, 1/2⟩
  match cfg_opts with
  | none => d
  | some co =>
    match co.Spaces with
    | none => d
    | some spaces =>
      match spaces.PanTiltVelocitySpace with
      | some (ptv :: _) =>
        match ptv.XRange with
        | none => d
        | some xr =>
          match ptv.YRange with
          | none => { d with max_pan_speed := xr.Max }
          | some yr => zoomBlock spaces ⟨xr.Max, yr.Max, d.max_zoom_speed⟩
      | _ => zoomBlock spaces d

/-- The limit-discovery part of PTZController.__init__ at src/ptz_controller.py
lines 72-104: the four request objects are created with the profile token, then
GetConfigurationOptions is called OUTSIDE any try, so a raising query propagates
and construction fails; only reading the response is guarded. -/
def initController (profileToken : String) (q : QueryResult) : Except Unit ControllerState :=
  match q with
  | QueryResult.raises => Except.error ()
  | QueryResult.ok cfg_opts =>
    let L := readLimits cfg_opts
    Except.ok
      { request_continuous := ⟨profileToken, none⟩
        request_stop := ⟨profileToken, none, none⟩
        request_gotopreset := ⟨profileToken, none⟩
        request_setpreset := ⟨profileToken, none⟩
        max_pan_speed := L.max_pan_speed
        max_tilt_speed := L.max_tilt_speed
        max_zoom_speed := L.max_zoom_speed }

/-- One movement burst of the run_cli menu loop (e.g. src/ptz_controller.py
lines 207-211): continuous_move, time.sleep(duration), stop with both axis
groups. The trace of client and clock interactions, in order. -/
def movementBurst (s : ControllerState) (pan tilt zoom duration : ℚ) :
    ControllerState × List CamEvent :=
  let r1 := continuous_move s pan tilt zoom
  let r2 := stop r1.1 true true
  (r2.1, r1.2 ++ [CamEvent.sleep duration] ++ r2.2)

/-- One movement burst of run_cli when the ContinuousMove call may fail.
run_cli wraps nothing around the burst body, so when the move raises the
exception propagates out of the handler before the sleep and the stop run:
the trace records the attempted move only. -/
def movementBurstAttempt (s : ControllerState) (moveSucceeds : Bool)
    (pan tilt zoom duration : ℚ) : List CamEvent :=
  let r1 := continuous_move s pan tilt zoom
  if moveSucceeds then r1.2 ++ [CamEvent.sleep duration] ++ (stop r1.1 true true).2
  else r1.2

end PTZCli

namespace PTZKeyboard

/-- From src/ptz_control_with_keyboard.py lines 129-134: clamp v into the
closed interval from -1 to 1 and scale by max_speed. -/
def normalized_speed (v max_speed : ℚ) : ℚ :=
  max (-1) (min 1 v) * max_speed

/-- From src/ptz_control_with_keyboard.py lines 136-154: build the velocity
triple with normalized_speed per axis, store it on the cached request, and
issue one ContinuousMove request. -/
def continuous_move (s : ControllerState) (pan tilt zoom : ℚ) :
    ControllerState × List CamEvent :=
  let vel : PTZVelocity :=
    ⟨⟨normalized_speed pan s.max_pan_speed, normalized_speed tilt s.max_tilt_speed⟩,
      ⟨normalized_speed zoom s.max_zoom_speed⟩⟩
  let s1 : ControllerState :=
    { s with request_continuous := { s.request_continuous with Velocity := some vel } }
  (s1, [CamEvent.continuousMove s1.request_continuous.ProfileToken vel])

/-- From src/ptz_control_with_keyboard.py lines 156-159. -/
def stop (s : ControllerState) (pan_tilt zoom : Bool) : ControllerState × List CamEvent :=
  let s1 : ControllerState :=
    { s with request_stop := { s.request_stop with PanTilt := some pan_tilt, Zoom := some zoom } }
  (s1, [CamEvent.stop s1.request_stop.ProfileToken pan_tilt zoom])

/-- From src/ptz_control_with_keyboard.py lines 161-163. -/
def go_to_preset (s : ControllerState) (preset_token : String) : ControllerState :=
  { s with request_gotopreset := { s.request_gotopreset with PresetToken := some preset_token } }

/-- From src/ptz_control_with_keyboard.py lines 165-174: as the CLI variant,
but the missing-token branch returns the empty string WITHOUT printing any
warning. -/
def set_preset (s : ControllerState) (name : String) (resp : Option SetPresetResponse) :
    ControllerState × SetPresetResult :=
  let s1 : ControllerState :=
    { s with request_setpreset := { s.request_setpreset with PresetName := some name } }
  match resp with
  | some r =>
    match r.PresetToken with
    | some tok => (s1, ⟨tok, false⟩)
    | none => (s1, ⟨"", false⟩)
  | none => (s1, ⟨"", false⟩)

/-- From src/ptz_control_with_keyboard.py lines 176-181. -/
def list_presets (s : ControllerState) (camPresets : List Preset) :
    ControllerState × List Preset :=
  (s, camPresets)

/-- The limit discovery at src/ptz_control_with_keyboard.py lines 99-127: the
query and every attribute access sit inside one try, and one large conjunction
checks every attribute before any assignment, so the outcome is either the full
camera-reported triple or the full 0.5 default triple. -/
def readLimits (q : QueryResult) : VelocityLimits :=
  match q with
  | QueryResult.raises => ⟨1/2, 1/2, 1/2⟩
  | QueryResult.ok cfg_opts =>
    match cfg_opts with
    | none => ⟨1/2, 1/2, 1/2⟩
    | some co =>
      match co.Spaces with
      | none => ⟨1/2, 1/2, 1/2⟩
      | some spaces =>
        match spaces.PanTiltVelocitySpace, spaces.ZoomVelocitySpace with
        | some (ptv :: _), some (zv :: _) =>
          match ptv.XRange, ptv.YRange, zv.XRange with
          | some xr, some yr, some zxr => ⟨xr.Max, yr.Max, zxr.Max⟩
          | _, _, _ => ⟨1/2, 1/2, 1/2⟩
        | _, _ => ⟨1/2, 1/2, 1/2⟩

/-- PTZController.__init__ at src/ptz_control_with_keyboard.py lines 86-127:
the four request objects carry the profile token, and construction always
succeeds; any discovery failure only degrades the limits to the defaults. -/
def initController (profileToken : String) (q : QueryResult) : ControllerState :=
  let L := readLimits q
  { request_continuous := ⟨profileToken, none⟩
    request_stop := ⟨profileToken, none, none⟩
    request_gotopreset := ⟨profileToken, none⟩
    request_setpreset := ⟨profileToken, none⟩
    max_pan_speed := L.max_pan_speed
    max_tilt_speed := L.max_tilt_speed
    max_zoom_speed := L.max_zoom_speed }

/-- One movement burst of the run_keyboard loop (e.g.
src/ptz_control_with_keyboard.py lines 267-271): continuous_move,
time.sleep(duration), stop with both axis groups. -/
def movementBurst (s : ControllerState) (pan tilt zoom duration : ℚ) :
    ControllerState × List CamEvent :=
  let r1 := continuous_move s pan tilt zoom
  let r2 := stop r1.1 true true
  (r2.1, r1.2 ++ [CamEvent.sleep duration] ++ r2.2)

/-- One movement burst of run_keyboard when the ContinuousMove call may fail.
The whole loop body runs inside the try of lines 210-323 whose finally clause
calls controller.stop(), so when the move raises, the unwinding still issues
one Stop request before control returns. -/
def movementBurstAttempt (s : ControllerState) (moveSucceeds : Bool)
    (pan tilt zoom duration : ℚ) : List CamEvent :=
  let r1 := continuous_move s pan tilt zoom
  if moveSucceeds then r1.2 ++ [CamEvent.sleep duration] ++ (stop r1.1 true true).2
  else r1.2 ++ (stop r1.1 true true).2

end PTZKeyboard

/-- Whether a SetPreset response carries a PresetToken attribute. -/
def hasPresetToken (resp : Option SetPresetResponse) : Bool :=
  match resp with
  | some r =>
    match r.PresetToken with
    | some _ => true
    | none => false
  | none => false

/-- A controller state right after construction against the default limits,
with the first media profile token. -/
def sampleState : ControllerState :=
  ⟨⟨"Profile_1", none⟩, ⟨"Profile_1", none, none⟩, ⟨"Profile_1", none⟩, ⟨"Profile_1", none⟩,
    1/2, 1/2, 1/2⟩

/-- A controller state with given per-axis limits. -/
def stateWithLimits (p t z : ℚ) : ControllerState :=
  ⟨⟨"Profile_1", none⟩, ⟨"Profile_1", none, none⟩, ⟨"Profile_1", none⟩, ⟨"Profile_1", none⟩,
    p, t, z⟩

/-- A fully well-formed configuration response: both velocity spaces present
with complete ranges. -/
def wellFormedOpts (p t z : ℚ) : ConfigOptions :=
  ⟨some ⟨some [⟨some ⟨-p, p⟩, some ⟨-t, t⟩⟩], some [⟨some ⟨-z, z⟩⟩]⟩⟩

/-- A partially formed configuration response: the pan-tilt space has an XRange
but no YRange, while the zoom space is complete with maximum 9/10. -/
def panOnlyOpts (p : ℚ) : ConfigOptions :=
  ⟨some ⟨some [⟨some ⟨-p, p⟩, none⟩], some [⟨some ⟨0, 9/10⟩⟩]⟩⟩

/-- C1 counterexample: in the CLI variant (run_cli, src/ptz_controller.py
lines 207-211) there is no try/finally around a burst, so when the
ContinuousMove call fails the burst issues NO stop call, contradicting the
claim that stop is attempted exactly once on every exit path. -/
theorem cli_burst_move_failure_no_stop :
    stopCount (PTZCli.movementBurstAttempt sampleState false (-(1/2)) 0 0 (1/2)) ≠ 1 := by
  decide

/-- C1 amended: in the keyboard variant every burst attempts exactly one stop
on every exit path (the enclosing finally issues it even when the move call
fails); in the CLI variant exactly one stop is issued when the move call
succeeds, and none at all when it fails. -/
theorem burst_stop_on_failure_by_variant (s s2 s3 : ControllerState) (moveSucceeds : Bool)
    (pan tilt zoom dur : ℚ) :
    stopCount (PTZKeyboard.movementBurstAttempt s moveSucceeds pan tilt zoom dur) = 1 ∧
    stopCount (PTZCli.movementBurstAttempt s2 true pan tilt zoom dur) = 1 ∧
    stopCount (PTZCli.movementBurstAttempt s3 false pan tilt zoom dur) = 0 := by
  refine ⟨?_, rfl, rfl⟩
  cases moveSucceeds <;> rfl

/-- C2 counterexample: in the CLI variant GetConfigurationOptions is called
outside any try (src/ptz_controller.py line 85), so a raising limits query
makes PTZController construction fail instead of succeeding with the 0.5
defaults. -/
theorem cli_init_query_failure_propagates :
    PTZCli.initController "Profile_1" QueryResult.raises = Except.error () := rfl

/-- C2 amended: in the keyboard variant construction always succeeds, any
discovery failure (raising query, absent response, absent Spaces, partially
formed spaces) yields 0.5 on all three axes, and a fully well-formed response
yields the camera-reported maxima; in the CLI variant a raising query
propagates and construction fails, and a partially formed response yields a
mixture of camera values and defaults rather than all defaults. -/
theorem velocity_limits_fallback_by_variant (tok : String) (p t z : ℚ) :
    limitsOf (PTZKeyboard.initController tok QueryResult.raises) = ⟨1/2, 1/2, 1/2⟩ ∧
    limitsOf (PTZKeyboard.initController tok (QueryResult.ok none)) = ⟨1/2, 1/2, 1/2⟩ ∧
    limitsOf (PTZKeyboard.initController tok (QueryResult.ok (some ⟨none⟩))) = ⟨1/2, 1/2, 1/2⟩ ∧
    limitsOf (PTZKeyboard.initController tok (QueryResult.ok (some (panOnlyOpts p))))
        = ⟨1/2, 1/2, 1/2⟩ ∧
    limitsOf (PTZKeyboard.initController tok (QueryResult.ok (some (wellFormedOpts p t z))))
        = ⟨p, t, z⟩ ∧
    PTZCli.initController tok QueryResult.raises = Except.error () ∧
    Except.map limitsOf (PTZCli.initController tok (QueryResult.ok (some (panOnlyOpts p))))
        = Except.ok ⟨p, 1/2, 1/2⟩ :=
  ⟨rfl, rfl, rfl, rfl, rfl, rfl, rfl⟩

/-- C3: for every input outside the normalized interval, normalized_speed (in
either variant) agrees with normalized_speed at the nearest boundary, and in
particular the value 2 with limit 1/2 gives 1/2 and the value -5 with limit
1/2 gives -1/2; out-of-range input is truncated, never rejected. -/
theorem normalized_speed_clamps_out_of_range (v limit : ℚ) (h : v < -1 ∨ 1 < v) :
    PTZCli.normalized_speed v limit
        = PTZCli.normalized_speed (if v < -1 then -1 else 1) limit ∧
    PTZKeyboard.normalized_speed v limit
        = PTZKeyboard.normalized_speed (if v < -1 then -1 else 1) limit ∧
    PTZCli.normalized_speed 2 (1/2) = 1/2 ∧
    PTZCli.normalized_speed (-5) (1/2) = -(1/2) := by
  have key : max (-1) (min 1 v) = max (-1) (min 1 (if v < -1 then (-1 : ℚ) else 1)) := by
    rcases h with h | h
    · rw [if_pos h]
      rw [min_eq_right (by linarith : v ≤ 1), min_eq_right (by norm_num : (-1 : ℚ) ≤ 1)]
      rw [max_eq_left (le_of_lt h), max_eq_left le_rfl]
    · rw [if_neg (by linarith : ¬ v < -1)]
      rw [min_eq_left (le_of_lt h), min_self]
  refine ⟨?_, ?_,
    by norm_num [PTZCli.normalized_speed, min_def, max_def],
    by norm_num [PTZCli.normalized_speed, min_def, max_def]⟩
  · show max (-1) (min 1 v) * limit = _
    rw [key]; rfl
  · show max (-1) (min 1 v) * limit = _
    rw [key]; rfl

/-- Witness for C3 at the concrete input 2 with limit 1/2. -/
theorem normalized_speed_clamps_out_of_range_witness :
    PTZCli.normalized_speed 2 (1/2) = PTZCli.normalized_speed 1 (1/2) ∧
    PTZCli.normalized_speed 2 (1/2) = 1/2 := by
  have h := normalized_speed_clamps_out_of_range 2 (1/2) (Or.inr (by norm_num))
  have h1 := h.1
  rw [if_neg (by norm_num : ¬ (2 : ℚ) < -1)] at h1
  exact ⟨h1, h.2.2.1⟩

/-- C4: for every input already inside the normalized interval,
normalized_speed (in either variant) is exactly the input times the limit;
the embedding is a pure total function, so determinism and absence of side
effects hold by construction. -/
theorem normalized_speed_in_range_scales (v limit : ℚ) (h1 : -1 ≤ v) (h2 : v ≤ 1) :
    PTZCli.normalized_speed v limit = v * limit ∧
    PTZKeyboard.normalized_speed v limit = v * limit := by
  have key : max (-1) (min 1 v) = v := by
    rw [min_eq_right h2, max_eq_right h1]
  constructor
  · show max (-1) (min 1 v) * limit = v * limit
    rw [key]
  · show max (-1) (min 1 v) * limit = v * limit
    rw [key]

/-- Witness for C4 at the concrete input 1/2 with limit 7/10. -/
theorem normalized_speed_in_range_scales_witness :
    PTZCli.normalized_speed (1/2) (7/10) = 7/20 ∧
    PTZKeyboard.normalized_speed (1/2) (7/10) = 7/20 := by
  have h := normalized_speed_in_range_scales (1/2) (7/10) (by norm_num) (by norm_num)
  exact ⟨h.1.trans (by norm_num), h.2.trans (by norm_num)⟩

/-- C5: with limits 7/10, 3/5 and 2/5, continuous_move with pan 1, tilt -1/2
and zoom 0 issues exactly one ContinuousMove request whose velocity triple is
pan 7/10, tilt -3/10, zoom 0, in both variants. -/
theorem continuous_move_concrete_velocity_request :
    (PTZCli.continuous_move (stateWithLimits (7/10) (3/5) (2/5)) 1 (-(1/2)) 0).2
        = [CamEvent.continuousMove "Profile_1" ⟨⟨7/10, -(3/10)⟩, ⟨0⟩⟩] ∧
    (PTZKeyboard.continuous_move (stateWithLimits (7/10) (3/5) (2/5)) 1 (-(1/2)) 0).2
        = [CamEvent.continuousMove "Profile_1" ⟨⟨7/10, -(3/10)⟩, ⟨0⟩⟩] := by
  constructor <;>
    norm_num [PTZCli.continuous_move, PTZKeyboard.continuous_move, PTZCli.normalized_speed,
      PTZKeyboard.normalized_speed, stateWithLimits, min_def, max_def]

/-- C6: a movement burst produces, in order, exactly one ContinuousMove (with
the normalized velocities), one sleep of the fixed burst duration, and one
Stop with both axis groups true, in both variants; the third conjunct is the
concrete pan burst with pan 1 and duration 3/10 of the keyboard loop. -/
theorem movement_burst_call_order (s s2 : ControllerState) (pan tilt zoom dur : ℚ) :
    (PTZKeyboard.movementBurst s pan tilt zoom dur).2 =
      [CamEvent.continuousMove s.request_continuous.ProfileToken
          ⟨⟨PTZKeyboard.normalized_speed pan s.max_pan_speed,
            PTZKeyboard.normalized_speed tilt s.max_tilt_speed⟩,
            ⟨PTZKeyboard.normalized_speed zoom s.max_zoom_speed⟩⟩,
        CamEvent.sleep dur,
        CamEvent.stop s.request_stop.ProfileToken true true] ∧
    (PTZCli.movementBurst s2 pan tilt zoom dur).2 =
      [CamEvent.continuousMove s2.request_continuous.ProfileToken
          ⟨⟨PTZCli.normalized_speed pan s2.max_pan_speed,
            PTZCli.normalized_speed tilt s2.max_tilt_speed⟩,
            ⟨PTZCli.normalized_speed zoom s2.max_zoom_speed⟩⟩,
        CamEvent.sleep dur,
        CamEvent.stop s2.request_stop.ProfileToken true true] ∧
    (PTZKeyboard.movementBurst sampleState 1 0 0 (3/10)).2 =
      [CamEvent.continuousMove "Profile_1" ⟨⟨1/2, 0⟩, ⟨0⟩⟩,
        CamEvent.sleep (3/10),
        CamEvent.stop "Profile_1" true true] :=
  ⟨rfl, rfl, by
    norm_num [PTZKeyboard.movementBurst, PTZKeyboard.continuous_move, PTZKeyboard.stop,
      PTZKeyboard.normalized_speed, sampleState, min_def, max_def]⟩

/-- C7 counterexample: in the keyboard variant a SetPreset response without a
token yields the empty token but NO PresetTokenMissing signal (nothing is
printed), contradicting the claim that the empty token always comes together
with the signal. -/
theorem keyboard_set_preset_missing_token_silent :
    (PTZKeyboard.set_preset sampleState "" none).2.token = "" ∧
    (PTZKeyboard.set_preset sampleState "" none).2.warned ≠ true := by
  decide

/-- C7 amended: in both variants a response without a token yields the empty
token without raising, and a response carrying a token yields that token; only
the CLI variant emits the missing-token warning signal, the keyboard variant
returns the empty token silently. -/
theorem set_preset_missing_token_by_variant (s s2 : ControllerState) (name : String)
    (resp : Option SetPresetResponse) :
    (hasPresetToken resp = false →
      (PTZCli.set_preset s name resp).2 = ⟨"", true⟩ ∧
      (PTZKeyboard.set_preset s2 name resp).2 = ⟨"", false⟩) ∧
    (∀ r ptok, resp = some r → r.PresetToken = some ptok →
      (PTZCli.set_preset s name resp).2 = ⟨ptok, false⟩ ∧
      (PTZKeyboard.set_preset s2 name resp).2 = ⟨ptok, false⟩) := by
  constructor
  · intro h
    rcases resp with _ | ⟨_ | t⟩
    · exact ⟨rfl, rfl⟩
    · exact ⟨rfl, rfl⟩
    · exact Bool.noConfusion h
  · rintro r ptok rfl hr
    rcases r with ⟨tk⟩
    rcases tk with _ | t
    · cases hr
    · cases hr
      exact ⟨rfl, rfl⟩

/-- Witness for C7 at a missing-token response and at a response carrying the
token P7. -/
theorem set_preset_missing_token_by_variant_witness :
    (PTZCli.set_preset sampleState "x" none).2 = ⟨"", true⟩ ∧
    (PTZKeyboard.set_preset sampleState "x" none).2 = ⟨"", false⟩ ∧
    (PTZCli.set_preset sampleState "x" (some ⟨some "P7"⟩)).2 = ⟨"P7", false⟩ ∧
    (PTZKeyboard.set_preset sampleState "x" (some ⟨some "P7"⟩)).2 = ⟨"P7", false⟩ := by
  have h1 := (set_preset_missing_token_by_variant sampleState sampleState "x" none).1 rfl
  have h2 := (set_preset_missing_token_by_variant sampleState sampleState "x"
      (some ⟨some "P7"⟩)).2 ⟨some "P7"⟩ "P7" rfl rfl
  exact ⟨h1.1, h1.2, h2.1, h2.2⟩

/-- C8: list_presets returns exactly the (possibly empty) sequence the camera
client reports, in both variants, and the empty list is a valid non-error
outcome. -/
theorem list_presets_forwards_exactly (s s2 : ControllerState) (camPresets : List Preset) :
    (PTZCli.list_presets s camPresets).2 = camPresets ∧
    (PTZKeyboard.list_presets s2 camPresets).2 = camPresets ∧
    (PTZCli.list_presets s ([] : List Preset)).2 = [] ∧
    (PTZKeyboard.list_presets s2 ([] : List Preset)).2 = [] :=
  ⟨rfl, rfl, rfl, rfl⟩

/-- C9: the normalization functions of the two controller variants are
extensionally equal. -/
theorem normalized_speed_variants_equal (v max_speed : ℚ) :
    PTZCli.normalized_speed v max_speed = PTZKeyboard.normalized_speed v max_speed := rfl

/-- C10: every public controller operation of either variant leaves the
ProfileToken field of each of the four cached request objects unchanged, and
construction sets all four to the selected profile token. -/
theorem profile_tokens_invariant (s s2 : ControllerState) (pan tilt zoom : ℚ)
    (pt z : Bool) (ptok name tok : String) (resp : Option SetPresetResponse)
    (camPresets : List Preset) (cfg : Option ConfigOptions) :
    profileTokens (PTZCli.continuous_move s pan tilt zoom).1 = profileTokens s ∧
    profileTokens (PTZCli.stop s pt z).1 = profileTokens s ∧
    profileTokens (PTZCli.go_to_preset s ptok) = profileTokens s ∧
    profileTokens (PTZCli.set_preset s name resp).1 = profileTokens s ∧
    profileTokens (PTZCli.list_presets s camPresets).1 = profileTokens s ∧
    profileTokens (PTZKeyboard.continuous_move s2 pan tilt zoom).1 = profileTokens s2 ∧
    profileTokens (PTZKeyboard.stop s2 pt z).1 = profileTokens s2 ∧
    profileTokens (PTZKeyboard.go_to_preset s2 ptok) = profileTokens s2 ∧
    profileTokens (PTZKeyboard.set_preset s2 name resp).1 = profileTokens s2 ∧
    profileTokens (PTZKeyboard.list_presets s2 camPresets).1 = profileTokens s2 ∧
    Except.map profileTokens (PTZCli.initController tok (QueryResult.ok cfg))
        = Except.ok (tok, tok, tok, tok) ∧
    profileTokens (PTZKeyboard.initController tok (QueryResult.ok cfg)) = (tok, tok, tok, tok) ∧
    profileTokens (PTZKeyboard.initController tok QueryResult.raises) = (tok, tok, tok, tok) := by
  refine ⟨rfl, rfl, rfl, ?_, rfl, rfl, rfl, rfl, ?_, rfl, rfl, rfl, rfl⟩
  · rcases resp with _ | ⟨_ | t⟩ <;> rfl
  · rcases resp with _ | ⟨_ | t⟩ <;> rfl
